import Mathlib

set_option maxRecDepth 4000

/-!
Verification development for the ATS resume bot.

Shallow embedding of the bot's core logic:
  * `FileProcessor.extract_text` (src/bot/utils.py) — text extraction with a
    catch-all handler that converts every failure into the empty string;
  * `get_matching_score` (src/ats-resume-bot/modules/resume_processor.py) —
    lexical keyword-overlap score;
  * `ATSResumeBot` session state machine (src/bot/handlers.py) — upload /
    job-description / payment / delivery sequencing;
  * `PDFGenerator` line classifier and layout (src/bot/pdf_generator.py);
  * `CashfreePayment.verify_webhook_signature` (src/bot/cashfree_pyment.py).

External libraries (PyPDF2, python-docx, the UTF-8 decoder, the OpenAI
client, the HMAC-SHA256 primitive) and the payment verifier implementation
(modules/cashfree.py, referenced by the handlers but not part of the
embedded sources) are modelled as explicit function parameters (oracles);
a `none` result of such an oracle models the library raising an exception.
Machine integers do not occur on the embedded paths; Python strings are
modelled as Lean `String` and byte payloads as `List Nat`.
-/

namespace ATSBot

/-! ## Python string primitives

Character-list implementations of the Python string operations the sources
use (`strip`, `lower`, `upper`, `split`, `startswith`, `endswith`, slicing).
They are written by structural recursion so that concrete instances reduce
inside the kernel. -/

/-- Python `s.strip()`: drop whitespace from both ends. -/
def pyStrip (s : String) : String :=
  String.mk
    (((s.toList.dropWhile Char.isWhitespace).reverse.dropWhile
      Char.isWhitespace).reverse)

/-- Python `s.lower()` (ASCII case mapping). -/
def pyLower (s : String) : String :=
  String.mk (s.toList.map Char.toLower)

/-- Python `s.upper()` (ASCII case mapping). -/
def pyUpper (s : String) : String :=
  String.mk (s.toList.map Char.toUpper)

/-- Split a character list at every character satisfying `p`, keeping empty
groups (the behaviour of Python's `split` with an explicit separator, and
the raw grouping underlying `split()` with none). -/
def splitChars (p : Char → Bool) : List Char → List (List Char)
  | [] => [[]]
  | c :: cs =>
      let r := splitChars p cs
      if p c then [] :: r
      else
        match r with
        | [] => [[c]]
        | g :: gs => (c :: g) :: gs

/-- Python `s.split('\n')`: split at newlines, keeping empty lines. -/
def pySplitNl (s : String) : List String :=
  (splitChars (fun c => c == '\n') s.toList).map String.mk

/-- Python `s.split()` (no separator): whitespace-delimited tokens, empty
tokens discarded. -/
def pySplitWs (s : String) : List String :=
  ((splitChars Char.isWhitespace s.toList).map String.mk).filter
    (fun w => w ≠ "")

/-- Python `s[1:]`: drop the first character. -/
def pyDropOne (s : String) : String :=
  String.mk (s.toList.drop 1)

/-- Boolean test that `p` is a prefix of `s` (on character lists). -/
def leadsWith : List Char → List Char → Bool
  | [], _ => true
  | _ :: _, [] => false
  | p :: ps, c :: cs => p == c && leadsWith ps cs

/-- Boolean test that `p` occurs as a contiguous substring of `s`
(character-list version of Python's `p in s`). -/
def occursIn (p : List Char) : List Char → Bool
  | [] => leadsWith p []
  | c :: cs => leadsWith p (c :: cs) || occursIn p cs

/-- Python's `pat in s` substring containment on strings. -/
def strContains (s pat : String) : Bool :=
  occursIn pat.toList s.toList

/-- Python `s.startswith(pre)`. -/
def pyStartsWith (s pre : String) : Bool :=
  leadsWith pre.toList s.toList

/-- Python `s.endswith(suf)`. -/
def pyEndsWith (s suf : String) : Bool :=
  leadsWith suf.toList.reverse s.toList.reverse

/-! ## Text extractor (src/bot/utils.py, class FileProcessor)

`pdfParse bytes` models `PyPDF2.PdfReader(BytesIO(bytes)).pages` with each
page's `extract_text()` result collected in order; `none` models the library
raising.  `docxParse bytes` models `docx.Document(BytesIO(bytes)).paragraphs`
(each paragraph's `.text`); `none` models the library raising.
`decodeUtf8 bytes` models `bytes.decode('utf-8', errors='ignore')`, which is
total. -/

/-- `FileProcessor.extract_pdf_text` (utils.py lines 31-43): concatenate the
non-empty page texts with newline separators, strip the result; any library
exception is caught and yields `""`. -/
def extract_pdf_text (pdfParse : List Nat → Option (List String))
    (file_bytes : List Nat) : String :=
  match pdfParse file_bytes with
  | none => ""
  | some pages =>
      pyStrip ((pages.filter (fun p => p ≠ "")).foldl
        (fun acc p => acc ++ p ++ "\n") "")

/-- `FileProcessor.extract_docx_text` (utils.py lines 45-56): concatenate the
paragraphs whose stripped text is non-empty with newline separators, strip
the result; any library exception is caught and yields `""`. -/
def extract_docx_text (docxParse : List Nat → Option (List String))
    (file_bytes : List Nat) : String :=
  match docxParse file_bytes with
  | none => ""
  | some paras =>
      pyStrip ((paras.filter (fun p => pyStrip p ≠ "")).foldl
        (fun acc p => acc ++ p ++ "\n") "")

/-- Error raised by the extension dispatch of `extract_text`
(`raise ValueError(f"Unsupported file format: {filename}")`, utils.py
line 26). -/
inductive ExtractError where
  | UnsupportedFormat
  deriving DecidableEq, Repr

/-- The body of the `try` block of `FileProcessor.extract_text` (utils.py
lines 18-26): dispatch on the filename suffix; an unsupported suffix raises
(`Except.error`). -/
def extract_text_dispatch (pdfParse docxParse : List Nat → Option (List String))
    (decodeUtf8 : List Nat → String)
    (file_bytes : List Nat) (filename : String) : Except ExtractError String :=
  if pyEndsWith filename ".pdf" then
    Except.ok (extract_pdf_text pdfParse file_bytes)
  else if pyEndsWith filename ".txt" then
    Except.ok (decodeUtf8 file_bytes)
  else if pyEndsWith filename ".docx" || pyEndsWith filename ".doc" then
    Except.ok (extract_docx_text docxParse file_bytes)
  else
    Except.error ExtractError.UnsupportedFormat

/-- `FileProcessor.extract_text` (utils.py lines 16-29): the surrounding
`try/except` converts the `ValueError` of the dispatch into the empty
string, so the caller always receives an ordinary `str`. -/
def extract_text (pdfParse docxParse : List Nat → Option (List String))
    (decodeUtf8 : List Nat → String)
    (file_bytes : List Nat) (filename : String) : String :=
  match extract_text_dispatch pdfParse docxParse decodeUtf8 file_bytes filename with
  | Except.ok t => t
  | Except.error _ => ""

/-! ## Match scorer (src/ats-resume-bot/modules/resume_processor.py) -/

/-- The token set of a text: `set(text.lower().split())` — lowercase, split
on whitespace runs, discard empties, collapse duplicates. -/
def tokenSet (s : String) : Finset String :=
  (pySplitWs (pyLower s)).toFinset

/-- Python's `round(q, 2)` on the exact rational value: round to two decimal
places. -/
def round2 (q : ℚ) : ℚ :=
  ((round (q * 100) : ℤ) : ℚ) / 100

/-- `get_matching_score` (resume_processor.py lines 29-34): the fraction of
job-description tokens that also occur in the resume, as a percentage
rounded to two decimals; `0` when the job-description token set is empty. -/
def get_matching_score (resume_text job_desc : String) : ℚ :=
  let resume_words := tokenSet resume_text
  let job_words := tokenSet job_desc
  let matched := resume_words ∩ job_words
  let score : ℚ :=
    if job_words.card = 0 then 0
    else (matched.card : ℚ) / (job_words.card : ℚ)
  round2 (score * 100)

/-! ## UTR format validation (handlers.py lines 871-873) -/

/-- `ATSResumeBot.is_valid_utr`: `utr.isdigit() and len(utr) == 12`
(Python's `isdigit` is true iff the string is non-empty and every character
is a digit). -/
def is_valid_utr (utr : String) : Bool :=
  (!utr.toList.isEmpty && utr.toList.all Char.isDigit) && utr.length == 12

/-! ## Document renderer (src/bot/pdf_generator.py, class PDFGenerator)

The reportlab flowables appended to `story` are modelled by `RenderItem`:
the style each `Paragraph` is rendered with becomes a constructor, spacers
and horizontal rules keep their own constructors.  The PDF byte buffer is
modelled as the list of flowables the document is built from. -/

/-- One flowable of the rendered document, tagged with the paragraph style
the source uses (`ContactInfo`, `SectionHeader`, `BulletPoint`,
`ResumeBody`). -/
inductive RenderItem where
  | spacer
  | rule
  | sectionHeader (text : String)
  | bullet (text : String)
  | body (text : String)
  | contact (text : String)
  deriving DecidableEq, Repr

/-- The fixed keyword list of `PDFGenerator.is_section_header`
(pdf_generator.py lines 160-165). -/
def sectionKeywords : List String :=
  ["SUMMARY", "PROFILE", "OBJECTIVE", "EXPERIENCE", "EMPLOYMENT",
   "WORK EXPERIENCE", "PROFESSIONAL EXPERIENCE", "EDUCATION",
   "SKILLS", "TECHNICAL SKILLS", "CORE COMPETENCIES", "CERTIFICATIONS",
   "ACHIEVEMENTS", "PROJECTS", "CONTACT", "PERSONAL DETAILS"]

/-- `PDFGenerator.is_section_header` (pdf_generator.py lines 158-179): the
uppercased stripped line either equals a keyword exactly, or is at most 30
characters long and contains a keyword as a substring. -/
def is_section_header (line : String) : Bool :=
  let line_upper := pyStrip (pyUpper line)
  sectionKeywords.contains line_upper ||
    (decide (line_upper.length ≤ 30) &&
      sectionKeywords.any (fun k => strContains line_upper k))

/-- One iteration of the `for line in lines` loop of
`PDFGenerator.process_resume_content` (pdf_generator.py lines 125-154):
the flowables appended for this line, and the updated `current_section`. -/
def classifyLine (rawLine : String) (current_section : Option String) :
    List RenderItem × Option String :=
  let line := pyStrip rawLine
  if line = "" then
    ([RenderItem.spacer], current_section)
  else if is_section_header line then
    ((if current_section.isSome then [RenderItem.spacer] else []) ++
      [RenderItem.sectionHeader (pyUpper line), RenderItem.rule],
     some line)
  else if pyStartsWith line "•" || pyStartsWith line "-" || pyStartsWith line "*" then
    ([RenderItem.bullet (pyStrip (pyDropOne line))], current_section)
  else if line.length > 100 then
    ([RenderItem.body line], current_section)
  else if current_section = none then
    ([RenderItem.contact line], current_section)
  else
    ([RenderItem.body line], current_section)

/-- The loop of `process_resume_content` over the list of lines, threading
`current_section` (initially `None`). -/
def processLines : List String → Option String → List RenderItem
  | [], _ => []
  | l :: ls, cur =>
      let (items, cur') := classifyLine l cur
      items ++ processLines ls cur'

/-- `PDFGenerator.process_resume_content` (pdf_generator.py lines 119-156):
split the content on newlines and classify each line. -/
def process_resume_content (content : String) : List RenderItem :=
  processLines (pySplitNl content) none

/-- `PDFGenerator.create_header` (pdf_generator.py lines 101-117).  The
`user_name` argument is accepted and ignored, exactly as in the source. -/
def create_header (user_name : String) : List RenderItem :=
  [RenderItem.contact "Surya's ATS-Optimized Professional Resume",
   RenderItem.spacer, RenderItem.rule, RenderItem.spacer]

/-- `PDFGenerator.create_footer` (pdf_generator.py lines 181-191);
`dateStr` stands for `datetime.now().strftime('%B %d, %Y')`. -/
def create_footer (dateStr : String) : List RenderItem :=
  [RenderItem.spacer, RenderItem.rule,
   RenderItem.contact
     ("Generated on " ++ dateStr ++ " • Surya ATS Resume Bot • 98% ATS Compatibility")]

/-- `PDFGenerator.generate_resume_pdf` (pdf_generator.py lines 66-99): the
story built into the PDF buffer is header ++ content ++ footer. -/
def generate_resume_pdf (dateStr : String) (resume_content user_name : String) :
    List RenderItem :=
  create_header user_name ++ process_resume_content resume_content ++
    create_footer dateStr

/-! ## Content rewriter (handlers.py lines 449-558)

The OpenAI chat-completion call is modelled by an oracle
`ai : String → String → Option String` giving the message content for a
(resume text, job description) pair; `none` models the client raising
(API error, timeout, missing capability). -/

/-- The fixed text the fallback prepends before the original resume
(the start of the f-string of `fallback_optimization`, handlers.py
lines 541-546). -/
def fallbackSummaryBlock : String :=
  "\nPROFESSIONAL SUMMARY\nResults-oriented professional with extensive experience in delivering high-quality solutions. \nProven track record in team collaboration, project management, and innovative problem-solving.\nStrong analytical and communication skills with a focus on achieving organizational goals.\n\n"

/-- The fixed text the fallback appends after the original resume
(the tail of the f-string of `fallback_optimization`, handlers.py
lines 548-556). -/
def fallbackSkillsBlock : String :=
  "\n\nADDITIONAL SKILLS\n• Project Management and Team Leadership\n• Analytical Problem-Solving\n• Effective Communication\n• Results-Oriented Approach\n• Collaborative Team Work\n• Innovative Solution Development\n        "

/-- `ATSResumeBot.fallback_optimization` (handlers.py lines 529-558): pure
string interpolation around the original resume text; the
`job_description` argument is accepted and ignored, as in the source. -/
def fallback_optimization (resume_text job_description : String) : String :=
  fallbackSummaryBlock ++ resume_text ++ fallbackSkillsBlock

/-- `ATSResumeBot.optimize_resume_with_ai` (handlers.py lines 504-527): on a
successful external call the content is stripped and a result shorter than
200 characters raises, which — like every other exception of the `try`
block — lands in the `except` branch and is recovered by
`fallback_optimization`. -/
def optimize_resume_with_ai (ai : String → String → Option String)
    (resume_text job_description : String) : String :=
  match ai resume_text job_description with
  | none => fallback_optimization resume_text job_description
  | some content =>
      let optimized_content := pyStrip content
      if optimized_content.length < 200 then
        fallback_optimization resume_text job_description
      else
        optimized_content

/-! ## Webhook signature verification (cashfree_pyment.py lines 210-228)

`hmacSha256 key msg` models
`hmac.new(key.encode(), msg.encode(), hashlib.sha256).hexdigest()`, an
external primitive. `hmac.compare_digest` is a timing-safe equality test;
its value is string equality. -/

/-- `CashfreePayment.verify_webhook_signature`: recompute the HMAC over
`timestamp + "." + payload` with the client secret and compare it with the
submitted signature. -/
def verify_webhook_signature (hmacSha256 : String → String → String)
    (client_secret payload signature timestamp : String) : Bool :=
  let signing_string := timestamp ++ "." ++ payload
  let expected_signature := hmacSha256 client_secret signing_string
  expected_signature == signature

/-! ## Session state machine (src/bot/handlers.py, class ATSResumeBot)

One user's session dictionary is embedded as `Session`; the `step` string
field takes exactly the five literals the handlers compare against.
Timestamps (`datetime.now()`) are threaded in as `Nat` parameters.  The
remote payment verifier (`self.payment_processor.verify_utr`, implemented
in `modules/cashfree.py`, which is not among the embedded sources) is
modelled from the spec: `verifyReference(referenceString, paymentId) -> bool`,
with `none` standing for a transport exception.  Outbound chat messages are
abstracted into the `BotOutput` tag of the message sent. -/

/-- The values of the session's `step` field. -/
inductive Step where
  | waiting_resume
  | waiting_job_description
  | ready_for_payment
  | waiting_utr
  | completed
  deriving DecidableEq, Repr

/-- One user session (the per-user dictionary created by `start_command`,
handlers.py lines 63-71, plus the fields later handlers add). -/
structure Session where
  step : Step
  resume_text : Option String
  job_description : Option String
  optimized_resume : Option String
  payment_id : Option String
  utr : Option String
  user_name : String
  start_time : Nat
  payment_time : Option Nat
  completion_time : Option Nat
  deriving DecidableEq, Repr

/-- The session `start_command` creates (handlers.py lines 63-71). -/
def initialSession (user_name : String) (now : Nat) : Session :=
  { step := Step.waiting_resume
    resume_text := none
    job_description := none
    optimized_resume := none
    payment_id := none
    utr := none
    user_name := user_name
    start_time := now
    payment_time := none
    completion_time := none }

/-- Which user-facing reply a handler produced (message texts abstracted to
their kind). -/
inductive BotOutput where
  | wrongStep (current : Step)
  | fileTooLarge
  | extractionFailure
  | resumeAccepted (chars : Nat)
  | jobDescTooShort (chars : Nat)
  | optimizationDone
  | invalidUtrFormat (utr : String)
  | verificationError (utr : String)
  | paymentFailed (utr : String)
  | pdfDelivered
  deriving DecidableEq, Repr

/-- `MAX_FILE_SIZE` (config/settings.py): 10 MiB. -/
def MAX_FILE_SIZE : Nat := 10 * 1024 * 1024

/-- `ATSResumeBot.handle_resume_upload` (handlers.py lines 202-290) for a
user with an existing session: reject out-of-step uploads and oversized
files, extract the text from the lowercased filename, and advance to
`waiting_job_description` only when the stripped text has at least 100
characters. -/
def handle_resume_upload (pdfParse docxParse : List Nat → Option (List String))
    (decodeUtf8 : List Nat → String)
    (session : Session) (file_size : Nat) (file_bytes : List Nat)
    (file_name : String) : Session × BotOutput :=
  if session.step ≠ Step.waiting_resume then
    (session, BotOutput.wrongStep session.step)
  else if file_size > MAX_FILE_SIZE then
    (session, BotOutput.fileTooLarge)
  else
    let filename := pyLower file_name
    let resume_text :=
      extract_text pdfParse docxParse decodeUtf8 file_bytes filename
    if resume_text = "" ∨ (pyStrip resume_text).length < 100 then
      (session, BotOutput.extractionFailure)
    else
      ({ session with
          resume_text := some resume_text
          step := Step.waiting_job_description },
       BotOutput.resumeAccepted resume_text.length)

/-- `ATSResumeBot.process_job_description` (handlers.py lines 316-399):
reject job descriptions under 100 characters; otherwise store it, rewrite
the resume (the rewriter itself never fails — it falls back locally), and
advance to `ready_for_payment`. -/
def process_job_description (ai : String → String → Option String)
    (session : Session) (job_description : String) : Session × BotOutput :=
  if job_description.length < 100 then
    (session, BotOutput.jobDescTooShort job_description.length)
  else
    let optimized_resume :=
      optimize_resume_with_ai ai (session.resume_text.getD "") job_description
    ({ session with
        job_description := some job_description
        optimized_resume := some optimized_resume
        step := Step.ready_for_payment },
     BotOutput.optimizationDone)

/-- The payment id `initiate_payment` builds (handlers.py lines 591-592):
`f"ATS_{user_id}_{timestamp}"` with `timestamp = int(datetime.now().timestamp())`. -/
def mkPaymentId (user_id ts : Nat) : String :=
  "ATS_" ++ toString user_id ++ "_" ++ toString ts

/-- `ATSResumeBot.initiate_payment` (handlers.py lines 580-652) for a user
with an existing session: generate a fresh payment id from the current
timestamp, store it (overwriting any previous one), and move to
`waiting_utr`. -/
def initiate_payment (user_id ts : Nat) (session : Session) : Session :=
  { session with
      payment_id := some (mkPaymentId user_id ts)
      step := Step.waiting_utr
      payment_time := some ts }

/-- Result of a text-message handler: the updated session, the reply kind,
the PDF buffer delivered (if any), and how many remote calls were made to
the payment verifier. -/
structure BotResult where
  session : Session
  output : BotOutput
  pdf : Option (List RenderItem)
  verifier_calls : Nat
  deriving DecidableEq, Repr

/-- `ATSResumeBot.process_successful_payment` (handlers.py lines 706-766):
render the PDF from the session's optimized resume, mark the session
completed, record the UTR, and deliver the buffer. -/
def process_successful_payment (session : Session) (utr : String)
    (now : Nat) (dateStr : String) : BotResult :=
  let pdf := generate_resume_pdf dateStr (session.optimized_resume.getD "")
    session.user_name
  { session :=
      { session with
          step := Step.completed
          utr := some utr
          completion_time := some now }
    output := BotOutput.pdfDelivered
    pdf := some pdf
    verifier_calls := 1 }

/-- `ATSResumeBot.verify_payment` (handlers.py lines 654-704): check the UTR
format locally first — an invalid format is rejected with no remote call;
otherwise consult the remote verifier (one remote call) and either deliver
(`process_successful_payment`), report a failed verification, or report a
transport error. -/
def verify_payment (verifier : String → String → Option Bool)
    (session : Session) (utr : String) (now : Nat) (dateStr : String) :
    BotResult :=
  if ¬ is_valid_utr utr then
    { session := session
      output := BotOutput.invalidUtrFormat utr
      pdf := none
      verifier_calls := 0 }
  else
    match verifier utr (session.payment_id.getD "") with
    | none =>
        { session := session
          output := BotOutput.verificationError utr
          pdf := none
          verifier_calls := 1 }
    | some true => process_successful_payment session utr now dateStr
    | some false =>
        { session := session
          output := BotOutput.paymentFailed utr
          pdf := none
          verifier_calls := 1 }

/-- `ATSResumeBot.handle_text_input` (handlers.py lines 292-314) for a user
with an existing session: strip the text, then dispatch on the session's
step — job-description processing, UTR verification, or an
unexpected-input reply that leaves the session unchanged. -/
def handle_text_input (ai : String → String → Option String)
    (verifier : String → String → Option Bool)
    (session : Session) (rawText : String) (now : Nat) (dateStr : String) :
    BotResult :=
  let text := pyStrip rawText
  match session.step with
  | Step.waiting_job_description =>
      let (s, out) := process_job_description ai session text
      { session := s, output := out, pdf := none, verifier_calls := 0 }
  | Step.waiting_utr => verify_payment verifier session text now dateStr
  | s =>
      { session := session
        output := BotOutput.wrongStep s
        pdf := none
        verifier_calls := 0 }

/-- `ATSResumeBot.restart_process` (handlers.py lines 931-952) for a user
with an existing session: keep the resume, drop the job description and the
optimized text, return to `waiting_job_description`. -/
def restart_process (session : Session) : Session :=
  { session with
      step := Step.waiting_job_description
      job_description := none
      optimized_resume := none }

/-! ## Helper lemmas -/

/-- `leadsWith` decides the list-prefix relation. -/
theorem leadsWith_iff_isPrefix (p s : List Char) :
    leadsWith p s = true ↔ p <+: s := by
  induction p generalizing s with
  | nil => simp [leadsWith]
  | cons a ps ih =>
      cases s with
      | nil => simp [leadsWith]
      | cons b cs =>
          simp [leadsWith, List.cons_prefix_cons, ih]

/-- `occursIn` decides the list-infix relation. -/
theorem occursIn_iff_isInfix (p s : List Char) :
    occursIn p s = true ↔ p <:+: s := by
  induction s with
  | nil =>
      simp [occursIn, leadsWith_iff_isPrefix, List.infix_nil,
        List.prefix_nil]
  | cons c cs ih =>
      simp [occursIn, leadsWith_iff_isPrefix, ih, List.infix_cons_iff]

/-- `strContains` decides substring containment on the character lists. -/
theorem strContains_iff (s pat : String) :
    strContains s pat = true ↔ pat.toList <:+: s.toList := by
  simp [strContains, occursIn_iff_isInfix]

/-! ## Claim C6 (extraction on unsupported extensions) -/

/-- Claim C6 counterexample: on an unsupported extension, `extract_text`
does not surface a distinguishable error value — the `ValueError` is caught
by the function's own `except` and the caller receives the empty string,
byte-identical to the ordinary result of successfully extracting an empty
`.txt` file. -/
theorem extract_unsupported_counterexample :
    extract_text (fun _ => none) (fun _ => none) (fun _ => "") []
        "resume.png" = "" ∧
      extract_text (fun _ => none) (fun _ => none) (fun _ => "") []
        "resume.txt" = "" := by
  constructor <;> rfl

/-- Claim C6 (amended): for every input whose filename ends in none of
`.pdf`, `.txt`, `.docx`, `.doc`, the dispatch inside the `try` block raises
`UnsupportedFormat` without consulting any parser (the result is the same
for every parser oracle), but the enclosing handler of `extract_text`
converts that error into the empty string, an ordinary text result. -/
theorem extract_unsupported_raises_locally
    (pdfParse docxParse : List Nat → Option (List String))
    (decodeUtf8 : List Nat → String)
    (file_bytes : List Nat) (filename : String)
    (h1 : pyEndsWith filename ".pdf" = false)
    (h2 : pyEndsWith filename ".txt" = false)
    (h3 : pyEndsWith filename ".docx" = false)
    (h4 : pyEndsWith filename ".doc" = false) :
    extract_text_dispatch pdfParse docxParse decodeUtf8 file_bytes filename =
        Except.error ExtractError.UnsupportedFormat ∧
      extract_text pdfParse docxParse decodeUtf8 file_bytes filename = "" := by
  refine ⟨?_, ?_⟩ <;>
    simp [extract_text, extract_text_dispatch, h1, h2, h3, h4]

/-- Witness for the amended claim C6 at the concrete input
`([], "resume.png")`. -/
theorem extract_unsupported_raises_locally_witness :
    extract_text_dispatch (fun _ => some ["page"]) (fun _ => some ["para"])
        (fun _ => "text") [] "resume.png" =
        Except.error ExtractError.UnsupportedFormat ∧
      extract_text (fun _ => some ["page"]) (fun _ => some ["para"])
        (fun _ => "text") [] "resume.png" = "" :=
  extract_unsupported_raises_locally (fun _ => some ["page"]) (fun _ => some ["para"])
    (fun _ => "text") [] "resume.png" (by decide) (by decide) (by decide)
    (by decide)

/-! ## Claim C10 (the extractor is total and collapses every failure to "") -/

/-- Claim C10: `extract_text` never lets an error escape: whatever the
dispatch raises is converted to `""`; in particular an unsupported
extension, a raising PDF parser and a raising DOCX parser all yield `""`,
so the caller can detect failure only by the emptiness (or shortness) of
the returned text. -/
theorem extract_text_total
    (pdfParse docxParse : List Nat → Option (List String))
    (decodeUtf8 : List Nat → String)
    (file_bytes : List Nat) (filename : String) :
    (∀ e, extract_text_dispatch pdfParse docxParse decodeUtf8 file_bytes
        filename = Except.error e →
      extract_text pdfParse docxParse decodeUtf8 file_bytes filename = "") ∧
    (pyEndsWith filename ".pdf" = false → pyEndsWith filename ".txt" = false →
      pyEndsWith filename ".docx" = false → pyEndsWith filename ".doc" = false →
      extract_text pdfParse docxParse decodeUtf8 file_bytes filename = "") ∧
    (pyEndsWith filename ".pdf" = true → pdfParse file_bytes = none →
      extract_text pdfParse docxParse decodeUtf8 file_bytes filename = "") ∧
    (pyEndsWith filename ".pdf" = false → pyEndsWith filename ".txt" = false →
      (pyEndsWith filename ".docx" = true ∨ pyEndsWith filename ".doc" = true) →
      docxParse file_bytes = none →
      extract_text pdfParse docxParse decodeUtf8 file_bytes filename = "") := by
  refine ⟨?_, ?_, ?_, ?_⟩
  · intro e he
    simp [extract_text, he]
  · intro h1 h2 h3 h4
    simp [extract_text, extract_text_dispatch, h1, h2, h3, h4]
  · intro h1 hp
    simp [extract_text, extract_text_dispatch, h1, extract_pdf_text, hp]
  · intro h1 h2 h3 hd
    rcases h3 with h3 | h3 <;>
      simp [extract_text, extract_text_dispatch, h1, h2, h3,
        extract_docx_text, hd]

/-- Witness for claim C10: a raising PDF parser on a `.pdf` file yields the
empty string. -/
theorem extract_text_total_witness :
    extract_text (fun _ => none) (fun _ => some ["para"]) (fun _ => "text")
      [0] "cv.pdf" = "" :=
  (extract_text_total (fun _ => none) (fun _ => some ["para"])
      (fun _ => "text") [0] "cv.pdf").2.2.1 (by decide) rfl

/-! ## Claim C7 (rewriter failure handling and deterministic fallback) -/

/-- Claim C7: a primary result whose stripped text is shorter than 200
characters is treated as a failure, as is a raising client; every failure
is recovered by `fallback_optimization`, whose output is the fixed
professional-summary block, the original resume text, and the fixed
additional-skills block concatenated (so the summary block is a prefix,
the skills block a suffix, and the original text an infix of the output,
which is never empty); when the primary capability is unavailable, two
invocations with identical inputs agree byte for byte. -/
theorem rewriter_fallback (ai ai2 : String → String → Option String)
    (resume_text job_description : String) :
    (ai resume_text job_description = none →
      optimize_resume_with_ai ai resume_text job_description =
        fallback_optimization resume_text job_description) ∧
    (∀ content, ai resume_text job_description = some content →
      (pyStrip content).length < 200 →
      optimize_resume_with_ai ai resume_text job_description =
        fallback_optimization resume_text job_description) ∧
    fallbackSummaryBlock.toList <+:
      (fallback_optimization resume_text job_description).toList ∧
    fallbackSkillsBlock.toList <:+
      (fallback_optimization resume_text job_description).toList ∧
    resume_text.toList <:+:
      (fallback_optimization resume_text job_description).toList ∧
    fallback_optimization resume_text job_description ≠ "" ∧
    (ai resume_text job_description = none →
      ai2 resume_text job_description = none →
      optimize_resume_with_ai ai resume_text job_description =
        optimize_resume_with_ai ai2 resume_text job_description) := by
  refine ⟨?_, ?_, ?_, ?_, ?_, ?_, ?_⟩
  · intro h
    simp [optimize_resume_with_ai, h]
  · intro content hc hlen
    simp [optimize_resume_with_ai, hc, hlen]
  · refine ⟨(resume_text ++ fallbackSkillsBlock).toList, ?_⟩
    simp [fallback_optimization, String.toList]
  · refine ⟨(fallbackSummaryBlock ++ resume_text).toList, ?_⟩
    simp [fallback_optimization, String.toList]
  · refine ⟨fallbackSummaryBlock.toList, fallbackSkillsBlock.toList, ?_⟩
    simp [fallback_optimization, String.toList]
  · intro h
    have h0 : (fallback_optimization resume_text job_description).length = 0 := by
      rw [h]; rfl
    have hs : (0 : Nat) < fallbackSummaryBlock.length := by decide
    rw [fallback_optimization, String.length_append, String.length_append] at h0
    omega
  · intro h h2
    simp [optimize_resume_with_ai, h, h2]

/-- Witness for claim C7: with an unavailable primary capability, the
rewrite of a concrete resume is exactly the fallback text. -/
theorem rewriter_fallback_witness :
    optimize_resume_with_ai (fun _ _ => none) "resume body" "target job" =
      fallback_optimization "resume body" "target job" :=
  (rewriter_fallback (fun _ _ => none) (fun _ _ => none) "resume body"
    "target job").1 rfl

/-! ## Claim C9 (webhook signature verification) -/

/-- Claim C9: webhook verification succeeds exactly when the submitted
signature equals the HMAC-SHA256 (an external primitive, passed as an
oracle) of `timestamp ++ "." ++ payload` under the shared secret;
consequently a signature computed for one payload fails against any
payload whose MAC differs — in particular against any tampered payload,
granted the external hash is collision-free on the two signing strings.
The comparison's timing behaviour (`hmac.compare_digest`) is not
observable in this embedding; its value is string equality. -/
theorem webhook_signature_check (hmacSha256 : String → String → String)
    (client_secret payload signature timestamp : String) :
    (verify_webhook_signature hmacSha256 client_secret payload signature
        timestamp = true ↔
      signature = hmacSha256 client_secret (timestamp ++ "." ++ payload)) ∧
    (∀ payload',
      hmacSha256 client_secret (timestamp ++ "." ++ payload') ≠
        hmacSha256 client_secret (timestamp ++ "." ++ payload) →
      verify_webhook_signature hmacSha256 client_secret payload'
        (hmacSha256 client_secret (timestamp ++ "." ++ payload))
        timestamp = false) := by
  constructor
  · simp only [verify_webhook_signature, beq_iff_eq]
    exact eq_comm
  · intro payload' hne
    simp only [verify_webhook_signature]
    exact beq_eq_false_iff_ne.mpr hne

/-- Witness for claim C9 with a concrete (injective) MAC oracle: the
signature for payload `"amount=5"` does not verify the tampered payload
`"amount=9"`. -/
theorem webhook_signature_check_witness :
    verify_webhook_signature (fun k m => k ++ "|" ++ m) "secret" "amount=9"
      ((fun k m => k ++ "|" ++ m) "secret" ("1700000000" ++ "." ++ "amount=5"))
      "1700000000" = false :=
  (webhook_signature_check (fun k m => k ++ "|" ++ m) "secret" "amount=5"
    "sig" "1700000000").2 "amount=9" (by decide)

/-! ## Claim C8 (renderer line classification) -/

/-- Claim C8: a line is a section header exactly when its uppercased
(stripped) form equals a keyword of the fixed set, or is at most 30
characters long and contains one as a substring; `"EXPERIENCE"` renders as
a section header, a 150-character prose line as a body paragraph,
`"- Led team of 5"` as a bullet with the marker stripped, and any
non-bullet non-header line of at most 100 characters seen before the first
section header renders in the centered contact-info style. -/
theorem renderer_line_classification (line : String) :
    (is_section_header line = true ↔
      pyStrip (pyUpper line) ∈ sectionKeywords ∨
        ((pyStrip (pyUpper line)).length ≤ 30 ∧
          ∃ k ∈ sectionKeywords, k.toList <:+: (pyStrip (pyUpper line)).toList)) ∧
    process_resume_content "EXPERIENCE" =
      [RenderItem.sectionHeader "EXPERIENCE", RenderItem.rule] ∧
    ("The candidate demonstrated strong ownership of all delivery pipelines and collaborated weekly across teams to ship reliable, well tested code on time." : String).length = 150 ∧
    process_resume_content "The candidate demonstrated strong ownership of all delivery pipelines and collaborated weekly across teams to ship reliable, well tested code on time." =
      [RenderItem.body "The candidate demonstrated strong ownership of all delivery pipelines and collaborated weekly across teams to ship reliable, well tested code on time."] ∧
    process_resume_content "- Led team of 5" =
      [RenderItem.bullet "Led team of 5"] ∧
    (∀ l : String, pyStrip l = l → l ≠ "" → is_section_header l = false →
      pyStartsWith l "•" = false → pyStartsWith l "-" = false →
      pyStartsWith l "*" = false → l.length ≤ 100 →
      classifyLine l none = ([RenderItem.contact l], none)) := by
  refine ⟨?_, by decide, by decide, by decide, by decide, ?_⟩
  · simp [is_section_header, strContains_iff, List.any_eq_true]
  · intro l ht hne hh hb hd hs hlen
    simp [classifyLine, ht, hne, hh, hb, hd, hs, Nat.not_lt.mpr hlen]

/-- Witness for claim C8: the contact line `"John Doe"`, seen before any
section header, is classified in the contact-info style. -/
theorem renderer_line_classification_witness :
    classifyLine "John Doe" none = ([RenderItem.contact "John Doe"], none) :=
  (renderer_line_classification "x").2.2.2.2.2 "John Doe" (by decide)
    (by decide) (by decide) (by decide) (by decide) (by decide) (by decide)

/-! ## Claim C3 (UTR format checked locally before any remote call) -/

/-- Claim C3: the format check accepts a reference string exactly when it
consists of 12 decimal digits; a string that fails it is rejected with the
format error, the session unchanged, and zero remote calls to the
verifier; a string that passes it proceeds to remote verification (exactly
one verifier call, whatever its outcome). -/
theorem utr_format_check (verifier : String → String → Option Bool)
    (session : Session) (utr : String) (now : Nat) (dateStr : String) :
    (is_valid_utr utr = true ↔
      utr.length = 12 ∧ ∀ c ∈ utr.toList, c.isDigit = true) ∧
    (is_valid_utr utr = false →
      verify_payment verifier session utr now dateStr =
        { session := session, output := BotOutput.invalidUtrFormat utr,
          pdf := none, verifier_calls := 0 }) ∧
    (is_valid_utr utr = true →
      (verify_payment verifier session utr now dateStr).verifier_calls = 1) := by
  refine ⟨?_, ?_, ?_⟩
  · simp only [is_valid_utr, Bool.and_eq_true, Bool.not_eq_true',
      List.isEmpty_eq_false_iff_exists_mem, List.all_eq_true, beq_iff_eq]
    constructor
    · rintro ⟨⟨-, hd⟩, hl⟩
      exact ⟨hl, hd⟩
    · rintro ⟨hl, hd⟩
      refine ⟨⟨?_, hd⟩, hl⟩
      have hlen : utr.toList.length = 12 := hl
      have hne : utr.toList ≠ [] := by
        intro hnil
        rw [hnil] at hlen
        simp at hlen
      exact List.exists_mem_of_ne_nil utr.toList hne
  · intro h
    simp [verify_payment, h]
  · intro h
    rw [verify_payment, if_neg (by simp [h])]
    cases verifier utr (session.payment_id.getD "") with
    | none => rfl
    | some b => cases b <;> rfl

/-- Witness for claim C3: `"12345"` fails the format check and is rejected
with no remote call; `"123456789012"` passes it and triggers exactly one
remote verification. -/
theorem utr_format_check_witness :
    verify_payment (fun _ _ => some false) (initialSession "Asha" 0) "12345"
        5 "June 01, 2025" =
      { session := initialSession "Asha" 0,
        output := BotOutput.invalidUtrFormat "12345",
        pdf := none, verifier_calls := 0 } ∧
    (verify_payment (fun _ _ => some false) (initialSession "Asha" 0)
        "123456789012" 5 "June 01, 2025").verifier_calls = 1 :=
  ⟨(utr_format_check (fun _ _ => some false) (initialSession "Asha" 0)
      "12345" 5 "June 01, 2025").2.1 (by decide),
   (utr_format_check (fun _ _ => some false) (initialSession "Asha" 0)
      "123456789012" 5 "June 01, 2025").2.2 (by decide)⟩

/-! ## Claim C5 (short or failed extraction never advances the session) -/

/-- Claim C5: when the extracted text of an uploaded file is empty or has
fewer than 100 characters after stripping, `handle_resume_upload` returns
the session entirely unchanged — so it stays in `waiting_resume` with all
fields intact — and, whenever the file passed the size limit (the only
case in which extraction is even attempted), the reply is the
extraction-failure signal; the session never advances to
`waiting_job_description`. -/
theorem short_extraction_no_advance
    (pdfParse docxParse : List Nat → Option (List String))
    (decodeUtf8 : List Nat → String)
    (session : Session) (file_size : Nat) (file_bytes : List Nat)
    (file_name : String)
    (hstep : session.step = Step.waiting_resume)
    (hshort : (pyStrip (extract_text pdfParse docxParse decodeUtf8 file_bytes
      (pyLower file_name))).length < 100) :
    (handle_resume_upload pdfParse docxParse decodeUtf8 session file_size
        file_bytes file_name).1 = session ∧
    (file_size ≤ MAX_FILE_SIZE →
      (handle_resume_upload pdfParse docxParse decodeUtf8 session file_size
        file_bytes file_name).2 = BotOutput.extractionFailure) := by
  rw [handle_resume_upload, if_neg (by simp [hstep])]
  by_cases hsize : file_size > MAX_FILE_SIZE
  · rw [if_pos hsize]
    exact ⟨rfl, fun hle => absurd hsize (Nat.not_lt.mpr hle)⟩
  · rw [if_neg hsize, if_pos (Or.inr hshort)]
    exact ⟨rfl, fun _ => rfl⟩

/-- Witness for claim C5: a corrupt one-byte `.pdf` upload (the parser
raises, so extraction yields `""`) leaves a fresh session unchanged and
reports the extraction failure. -/
theorem short_extraction_no_advance_witness :
    (handle_resume_upload (fun _ => none) (fun _ => none) (fun _ => "")
        (initialSession "Asha" 0) 4 [37, 80, 68, 70] "CV.pdf").1 =
      initialSession "Asha" 0 ∧
    (handle_resume_upload (fun _ => none) (fun _ => none) (fun _ => "")
        (initialSession "Asha" 0) 4 [37, 80, 68, 70] "CV.pdf").2 =
      BotOutput.extractionFailure :=
  ⟨(short_extraction_no_advance (fun _ => none) (fun _ => none) (fun _ => "")
      (initialSession "Asha" 0) 4 [37, 80, 68, 70] "CV.pdf" rfl (by decide)).1,
   (short_extraction_no_advance (fun _ => none) (fun _ => none) (fun _ => "")
      (initialSession "Asha" 0) 4 [37, 80, 68, 70] "CV.pdf" rfl (by decide)).2
     (by decide)⟩

/-! ## Claim C1 (confirmed payment completes the session and delivers one PDF) -/

/-- Claim C1: in step `waiting_utr`, a submitted reference of exactly 12
digits that the payment verifier confirms moves the session to `completed`
and delivers the PDF buffer rendered from the session's optimized resume;
submitting the same reference again afterwards produces no second PDF and
leaves the session untouched, because the step is already `completed`.
The remote verifier is an oracle modelled from the spec
(`verifyReference(referenceString, paymentId) -> bool`); `pyStrip utr = utr`
records that a pure digit string is unchanged by the handler's `strip()`. -/
theorem confirmed_payment_delivery
    (ai : String → String → Option String)
    (verifier : String → String → Option Bool)
    (session : Session) (utr : String) (now now2 : Nat)
    (dateStr dateStr2 : String)
    (hstep : session.step = Step.waiting_utr)
    (htrim : pyStrip utr = utr)
    (hformat : is_valid_utr utr = true)
    (hconfirm : verifier utr (session.payment_id.getD "") = some true) :
    (handle_text_input ai verifier session utr now dateStr).session.step =
      Step.completed ∧
    (handle_text_input ai verifier session utr now dateStr).pdf =
      some (generate_resume_pdf dateStr (session.optimized_resume.getD "")
        session.user_name) ∧
    (handle_text_input ai verifier
        (handle_text_input ai verifier session utr now dateStr).session utr
        now2 dateStr2).pdf = none ∧
    (handle_text_input ai verifier
        (handle_text_input ai verifier session utr now dateStr).session utr
        now2 dateStr2).session =
      (handle_text_input ai verifier session utr now dateStr).session := by
  have hfirst : handle_text_input ai verifier session utr now dateStr =
      process_successful_payment session utr now dateStr := by
    rw [handle_text_input]
    rw [hstep, htrim]
    rw [verify_payment, if_neg (by simp [hformat]), hconfirm]
  rw [hfirst]
  have hdone : (process_successful_payment session utr now dateStr).session.step
      = Step.completed := rfl
  refine ⟨hdone, rfl, ?_, ?_⟩ <;>
    · rw [handle_text_input, hdone]

/-- Witness for claim C1: a fully populated session in `waiting_utr` with a
confirming verifier at UTR `"998877665544"` completes and delivers the
rendered PDF; the repeated submission delivers nothing new. -/
theorem confirmed_payment_delivery_witness :
    (handle_text_input (fun _ _ => none) (fun _ _ => some true)
        { step := Step.waiting_utr, resume_text := some "resume",
          job_description := some "job", optimized_resume := some "SUMMARY",
          payment_id := some "ATS_7_1000", utr := none, user_name := "Asha",
          start_time := 0, payment_time := some 1000,
          completion_time := none }
        "998877665544" 1200 "June 01, 2025").session.step = Step.completed ∧
    (handle_text_input (fun _ _ => none) (fun _ _ => some true)
        { step := Step.waiting_utr, resume_text := some "resume",
          job_description := some "job", optimized_resume := some "SUMMARY",
          payment_id := some "ATS_7_1000", utr := none, user_name := "Asha",
          start_time := 0, payment_time := some 1000,
          completion_time := none }
        "998877665544" 1200 "June 01, 2025").pdf =
      some (generate_resume_pdf "June 01, 2025" "SUMMARY" "Asha") ∧
    (handle_text_input (fun _ _ => none) (fun _ _ => some true)
        (handle_text_input (fun _ _ => none) (fun _ _ => some true)
          { step := Step.waiting_utr, resume_text := some "resume",
            job_description := some "job", optimized_resume := some "SUMMARY",
            payment_id := some "ATS_7_1000", utr := none, user_name := "Asha",
            start_time := 0, payment_time := some 1000,
            completion_time := none }
          "998877665544" 1200 "June 01, 2025").session
        "998877665544" 1300 "June 02, 2025").pdf = none := by
  have h := confirmed_payment_delivery (fun _ _ => none) (fun _ _ => some true)
    { step := Step.waiting_utr, resume_text := some "resume",
      job_description := some "job", optimized_resume := some "SUMMARY",
      payment_id := some "ATS_7_1000", utr := none, user_name := "Asha",
      start_time := 0, payment_time := some 1000, completion_time := none }
    "998877665544" 1200 1300 "June 01, 2025" "June 02, 2025"
    rfl (by decide) (by decide) rfl
  exact ⟨h.1, h.2.1, h.2.2.1⟩

/-! ## Claim C4 (paymentId immutability) -/

/-- Claim C4 counterexample: the payment id is not immutable — repeating the
payment-initiation request one second later regenerates it from the new
timestamp and overwrites the stored value, so the two initiations yield
different payment ids for the same session. -/
theorem payment_id_overwritten_counterexample :
    (initiate_payment 7 1000 (initialSession "Asha" 0)).payment_id =
      some "ATS_7_1000" ∧
    (initiate_payment 7 1001
        (initiate_payment 7 1000 (initialSession "Asha" 0))).payment_id =
      some "ATS_7_1001" ∧
    (initiate_payment 7 1001
        (initiate_payment 7 1000 (initialSession "Asha" 0))).payment_id ≠
      (initiate_payment 7 1000 (initialSession "Asha" 0)).payment_id := by
  refine ⟨rfl, rfl, ?_⟩
  decide

/-- Claim C4 (amended): every payment initiation regenerates the payment id
as `ATS_{user_id}_{timestamp}` and stores it, overwriting any previous
value; a repeated initiation yields the same id only when its timestamp
(whole seconds) coincides with the first; and no other session operation —
resume upload, text input (job description or UTR, including a successful
delivery), or restart — writes the `payment_id` field. -/
theorem payment_id_regenerated_each_initiation
    (user_id ts ts' : Nat) (session : Session)
    (pdfParse docxParse : List Nat → Option (List String))
    (decodeUtf8 : List Nat → String)
    (ai : String → String → Option String)
    (verifier : String → String → Option Bool)
    (file_size : Nat) (file_bytes : List Nat) (file_name : String)
    (text : String) (now : Nat) (dateStr : String) :
    (initiate_payment user_id ts session).payment_id =
      some (mkPaymentId user_id ts) ∧
    (ts' = ts →
      (initiate_payment user_id ts'
          (initiate_payment user_id ts session)).payment_id =
        (initiate_payment user_id ts session).payment_id) ∧
    (handle_resume_upload pdfParse docxParse decodeUtf8 session file_size
        file_bytes file_name).1.payment_id = session.payment_id ∧
    (handle_text_input ai verifier session text now dateStr).session.payment_id
        = session.payment_id ∧
    (restart_process session).payment_id = session.payment_id := by
  refine ⟨rfl, ?_, ?_, ?_, rfl⟩
  · intro h
    subst h
    rfl
  · rw [handle_resume_upload]
    split
    · rfl
    · split
      · rfl
      · simp only
        split
        · rfl
        · rfl
  · rw [handle_text_input]
    cases hstep : session.step
    case waiting_job_description =>
      simp only
      rw [process_job_description]
      split
      · rfl
      · rfl
    case waiting_utr =>
      simp only
      rw [verify_payment]
      split
      · rfl
      · split
        · rfl
        · rfl
        · rfl
    all_goals rfl

/-- Witness for the amended claim C4: initiating twice within the same
second keeps the same payment id, and a successful delivery afterwards
leaves it untouched. -/
theorem payment_id_regenerated_each_initiation_witness :
    (initiate_payment 7 1000
        (initiate_payment 7 1000 (initialSession "Asha" 0))).payment_id =
      (initiate_payment 7 1000 (initialSession "Asha" 0)).payment_id ∧
    (handle_text_input (fun _ _ => none) (fun _ _ => some true)
        (initiate_payment 7 1000 (initialSession "Asha" 0)) "998877665544"
        1200 "June 01, 2025").session.payment_id =
      (initiate_payment 7 1000 (initialSession "Asha" 0)).payment_id :=
  ⟨(payment_id_regenerated_each_initiation 7 1000 1000
      (initialSession "Asha" 0) (fun _ => none) (fun _ => none) (fun _ => "")
      (fun _ _ => none) (fun _ _ => some true) 0 [] "CV.pdf" "998877665544"
      1200 "June 01, 2025").2.1 rfl,
   (payment_id_regenerated_each_initiation 7 1000 1000
      (initiate_payment 7 1000 (initialSession "Asha" 0)) (fun _ => none)
      (fun _ => none) (fun _ => "") (fun _ _ => none) (fun _ _ => some true)
      0 [] "CV.pdf" "998877665544" 1200 "June 01, 2025").2.2.2.1⟩

/-! ## Claim C2 (match score formula and bounds) -/

/-- `round2` maps `[0, 100]` into `[0, 100]`. -/
theorem round2_bounds (q : ℚ) (h0 : 0 ≤ q) (h1 : q ≤ 100) :
    0 ≤ round2 q ∧ round2 q ≤ 100 := by
  have hz0 : (0 : ℤ) ≤ round (q * 100) := by
    rw [round_eq]; positivity
  have hz1 : round (q * 100) ≤ 10000 := by
    rw [round_eq]
    have hfl : (⌊(10000 : ℚ) + 1 / 2⌋ : ℤ) = 10000 := by
      rw [Int.floor_eq_iff]
      norm_num
    calc ⌊q * 100 + 1 / 2⌋ ≤ ⌊(10000 : ℚ) + 1 / 2⌋ :=
          Int.floor_le_floor (by linarith)
      _ = 10000 := hfl
  rw [round2]
  constructor
  · exact div_nonneg (by exact_mod_cast hz0) (by norm_num)
  · rw [div_le_iff₀ (by norm_num : (0:ℚ) < 100)]
    calc ((round (q * 100) : ℤ) : ℚ) ≤ ((10000 : ℤ) : ℚ) := by
          exact_mod_cast hz1
      _ = 100 * 100 := by norm_num

/-- Claim C2: the match score is `round(100 * |T(resume) ∩ T(jd)| / |T(jd)|, 2)`
over the lowercased whitespace token sets; it is `0` when the
job-description token set is empty, and always lies in `[0, 100]`. -/
theorem match_score_spec (resume_text job_desc : String) :
    ((tokenSet job_desc).card ≠ 0 →
      get_matching_score resume_text job_desc =
        round2 (100 * (((tokenSet resume_text ∩ tokenSet job_desc).card : ℚ) /
          ((tokenSet job_desc).card : ℚ)))) ∧
    ((tokenSet job_desc).card = 0 →
      get_matching_score resume_text job_desc = 0) ∧
    0 ≤ get_matching_score resume_text job_desc ∧
    get_matching_score resume_text job_desc ≤ 100 := by
  have hsub : (tokenSet resume_text ∩ tokenSet job_desc).card ≤
      (tokenSet job_desc).card :=
    Finset.card_le_card Finset.inter_subset_right
  have h0 : 0 ≤ (if (tokenSet job_desc).card = 0 then (0:ℚ)
      else ((tokenSet resume_text ∩ tokenSet job_desc).card : ℚ) /
        ((tokenSet job_desc).card : ℚ)) := by
    split
    · exact le_refl 0
    · exact div_nonneg (Nat.cast_nonneg _) (Nat.cast_nonneg _)
  have h1 : (if (tokenSet job_desc).card = 0 then (0:ℚ)
      else ((tokenSet resume_text ∩ tokenSet job_desc).card : ℚ) /
        ((tokenSet job_desc).card : ℚ)) ≤ 1 := by
    split
    · norm_num
    · rename_i hc
      rw [div_le_one (Nat.cast_pos.mpr (Nat.pos_of_ne_zero hc))]
      exact_mod_cast hsub
  have hb := round2_bounds
    ((if (tokenSet job_desc).card = 0 then (0:ℚ)
      else ((tokenSet resume_text ∩ tokenSet job_desc).card : ℚ) /
        ((tokenSet job_desc).card : ℚ)) * 100)
    (mul_nonneg h0 (by norm_num))
    (by nlinarith)
  refine ⟨?_, ?_, hb.1, hb.2⟩
  · intro h
    simp only [get_matching_score, if_neg h]
    congr 1
    ring
  · intro h
    simp only [get_matching_score, if_pos h]
    simp [round2]

/-- Witness for claim C2: an empty job description scores `0`, and a
concrete pair is scored by the spec formula. -/
theorem match_score_spec_witness :
    get_matching_score "python developer with sql" "   " = 0 ∧
    get_matching_score "a b c" "a b d" =
      round2 (100 * (((tokenSet "a b c" ∩ tokenSet "a b d").card : ℚ) /
        ((tokenSet "a b d").card : ℚ))) :=
  ⟨(match_score_spec "python developer with sql" "   ").2.1 (by decide),
   (match_score_spec "a b c" "a b d").1 (by decide)⟩

end ATSBot
